import Mathlib

/-!
Shallow embedding of the restock decision engine of `src/interface.py`
(a Streamlit dashboard around a pandas / Prophet pipeline).

Modelling choices:
- Stock quantities and forecast values are rationals (`ℚ`); a missing
  (NaN) on-hand reading is `Option.none`.
- A row of the per-item dataframe is a pair `(day, stock)`; rows are
  assumed already sorted ascending by date (the script calls
  `data.sort_values('Date')` before the engine runs).
- The Prophet library is the pluggable forecasting capability: it is
  embedded as an arbitrary function from a model configuration and a
  training series to a per-day prediction `yhat`.
-/

namespace RestockAI

/-- One row of the per-item dataframe: the day index of the `Date`
column and the `Current_Stock` reading (`none` models a NaN cell). -/
abbrev StockObservation := Nat × Option ℚ

/-- One row `(ds, y)` of the cleaned dataframe `df_prophet`. -/
abbrev ConsumptionPoint := Nat × ℚ

/-- The clamp `data.loc[data['y'] < 0, 'y'] = 0` applied to one burn
value. -/
def clampBurn (x : ℚ) : ℚ := if x < 0 then 0 else x

/-- The burn-signal extraction
`data['y'] = data['Current_Stock'].shift(1) - data['Current_Stock']`
followed by the negative clamp and `.dropna()`: each adjacent pair of
rows whose stock readings are both present contributes one point dated
at the later row, valued `clampBurn (prev - curr)`; a pair touching a
missing reading contributes nothing, and the first row (whose shifted
value is NaN) contributes nothing. -/
def df_prophet : List StockObservation → List ConsumptionPoint
  | [] => []
  | [_] => []
  | a :: b :: rest =>
    (match a.2, b.2 with
     | some x, some y => [(b.1, clampBurn (x - y))]
     | _, _ => []) ++ df_prophet (b :: rest)

/-- The constructor arguments of a `Prophet(...)` model that the script
sets: the two seasonality switches (`none` is the library default
"auto") and `changepoint_prior_scale`. -/
structure ProphetSpec where
  yearly_seasonality : Option Bool
  daily_seasonality : Option Bool
  changepoint_prior_scale : ℚ
deriving DecidableEq

/-- Prophet's default `changepoint_prior_scale` (0.05). -/
def defaultChangepointScale : ℚ := 1 / 20

/-- `m365 = Prophet(yearly_seasonality=True, daily_seasonality=False)`:
the seasonal model, at the default trend flexibility. -/
def m365 : ProphetSpec :=
  ⟨some true, some false, defaultChangepointScale⟩

/-- `m30 = Prophet(changepoint_prior_scale=0.5)`: the reactive model. -/
def m30 : ProphetSpec := ⟨none, none, 1 / 2⟩

/-- The pluggable forecasting capability: from a model configuration
and a training series, the predicted `yhat` at a given day. It is a
pure function, so prediction is deterministic in its inputs. -/
abbrev Forecaster := ProphetSpec → List ConsumptionPoint → Nat → ℚ

/-- `df.tail(n)`: the last `n` rows of a dataframe (all rows when it is
shorter than `n`). -/
def tailRows (n : Nat) (xs : List α) : List α := xs.drop (xs.length - n)

/-- The last training day of the seasonal model: the `ds` of the last
row of `df_prophet` (rows are sorted ascending). -/
def lastDs (df : List ConsumptionPoint) : Nat := (df.getLastD (0, 0)).1

/-- The 30 future rows of `m365.make_future_dataframe(periods=30)`, as
selected by `.tail(30)` of the prediction: the 30 consecutive days
after the end of the full history. -/
def futureDays (df : List ConsumptionPoint) : List Nat :=
  (List.range 30).map (fun i => lastDs df + 1 + i)

/-- `f365_val = forecast_res_365['yhat'].tail(30).sum()`: the seasonal
model is fit on the whole of `df_prophet` and its 30 future daily
predictions are summed, unclamped. -/
def f365_val (predict : Forecaster) (df : List ConsumptionPoint) : ℚ :=
  ((futureDays df).map (predict m365 df)).sum

/-- `f30_val = m30.predict(future)['yhat'].tail(30).sum()`: the
reactive model is fit on `df_prophet.tail(30)` but predicts over the
future dataframe built from the seasonal model, so over the same 30
days; the daily predictions are summed, unclamped. -/
def f30_val (predict : Forecaster) (df : List ConsumptionPoint) : ℚ :=
  ((futureDays df).map (predict m30 (tailRows 30 df))).sum

/-- `avg_daily_burn = df_prophet['y'].mean()`. -/
def avg_daily_burn (df : List ConsumptionPoint) : ℚ :=
  (df.map Prod.snd).sum / (df.length : ℚ)

/-- `fallback = avg_daily_burn * 30`. -/
def fallback (df : List ConsumptionPoint) : ℚ := avg_daily_burn df * 30

/-- `final_need = max(f365_final, f30_final)` where
`f365_final = max(f365_val, fallback)` and
`f30_final = max(f30_val, fallback)`. -/
def final_need (s r fb : ℚ) : ℚ := max (max s fb) (max r fb)

/-- `order_qty = max(0, final_need - current_stock)`. -/
def order_qty (s r fb c : ℚ) : ℚ := max 0 (final_need s r fb - c)

/-- The two values the rationale string can name. -/
inductive WinningModel
  | seasonal
  | reactive
deriving DecidableEq

/-- `winning_model = "Seasonal Baseline" if f365_final > f30_final else
"Recent Anomaly Detection"`, applied to the floored finals. -/
def winning_model (f365_final f30_final : ℚ) : WinningModel :=
  if f365_final > f30_final then .seasonal else .reactive

/-- `current_stock = data['Current_Stock'].iloc[-1]`: the most recent
row's on-hand reading, taken from the uncleaned dataframe. (A missing
last reading is read as 0 here; no claim exercises that case.) -/
def current_stock (obs : List StockObservation) : ℚ :=
  ((obs.getLastD (0, some 0)).2).getD 0

/-- One per-horizon forecast: the horizon and the summed demand. -/
structure ForecastResult where
  horizon_days : Nat
  predicted_total_demand : ℚ
deriving DecidableEq

/-- The terminal output of one engine run. -/
structure RestockDecision where
  seasonal_forecast : ForecastResult
  reactive_forecast : ForecastResult
  fallback_floor : ℚ
  final_order_quantity : ℚ
  winning_model : WinningModel
  current_stock : ℚ
deriving DecidableEq

/-- The failure surfaced when fewer than 2 valid consumption points
remain (`if len(df_prophet) < 2`, shown as a warning and producing no
decision). -/
inductive PipelineError
  | insufficientData
deriving DecidableEq

/-- The whole engine run for one item: extraction, the insufficient
data guard, the two forecasts, the fallback floor and the resolver. -/
def runPipeline (predict : Forecaster) (obs : List StockObservation) :
    Except PipelineError RestockDecision :=
  let df := df_prophet obs
  if df.length < 2 then .error .insufficientData
  else
    let s := f365_val predict df
    let r := f30_val predict df
    let fb := fallback df
    let c := current_stock obs
    .ok { seasonal_forecast := ⟨30, s⟩
          reactive_forecast := ⟨30, r⟩
          fallback_floor := fb
          final_order_quantity := order_qty s r fb c
          winning_model := RestockAI.winning_model (max s fb) (max r fb)
          current_stock := c }

/-- A dataframe of fully valid rows, from explicit `(day, stock)`
pairs. -/
def validRows (rows : List (Nat × ℚ)) : List StockObservation :=
  rows.map (fun p => (p.1, some p.2))

/-- The forecaster predicting 0 everywhere, for concrete runs. -/
def constZero : Forecaster := fun _ _ _ => 0

/-- A small fully valid run input: stocks 5, 4, 3 on days 0, 1, 2. -/
def obsSample : List StockObservation :=
  [(0, some 5), (1, some 4), (2, some 3)]

/-- The decision `runPipeline constZero obsSample` returns: burns are
`[1, 1]`, so the floor is 30, both zero forecasts are floored to 30,
and 3 units are on hand. -/
def decSample : RestockDecision :=
  { seasonal_forecast := ⟨30, 0⟩
    reactive_forecast := ⟨30, 0⟩
    fallback_floor := 30
    final_order_quantity := 27
    winning_model := .reactive
    current_stock := 3 }

/-! ### Helper lemmas -/

theorem clampBurn_eq_max (x : ℚ) : clampBurn x = max 0 x := by
  unfold clampBurn
  rcases lt_or_le x 0 with h | h
  · rw [if_pos h, max_eq_left h.le]
  · rw [if_neg (not_lt.mpr h), max_eq_right h]

theorem clampBurn_nonneg (x : ℚ) : 0 ≤ clampBurn x := by
  rw [clampBurn_eq_max]
  exact le_max_left 0 x

/-- On fully valid rows, the extractor yields exactly one clamped
difference per adjacent pair, dated at the later row. -/
theorem df_prophet_valid :
    ∀ (rows : List (Nat × ℚ)),
      df_prophet (validRows rows) =
        (rows.zip rows.tail).map
          (fun pc => (pc.2.1, clampBurn (pc.1.2 - pc.2.2)))
  | [] => rfl
  | [_] => rfl
  | a :: b :: rest => by
    have ih := df_prophet_valid (b :: rest)
    simp only [validRows, List.map_cons] at ih ⊢
    rw [show df_prophet ((a.1, some a.2) :: (b.1, some b.2) ::
          List.map (fun p => (p.1, some p.2)) rest) =
        (b.1, clampBurn (a.2 - b.2)) ::
          df_prophet ((b.1, some b.2) ::
            List.map (fun p => (p.1, some p.2)) rest) from rfl, ih]
    simp [List.zip_cons_cons]

/-- Every emitted burn value is the result of the clamp, hence
non-negative. -/
theorem df_prophet_snd_nonneg :
    ∀ (obs : List StockObservation), ∀ p ∈ df_prophet obs, 0 ≤ p.2
  | [], _, h => absurd h (List.not_mem_nil _)
  | [_], _, h => absurd h (List.not_mem_nil _)
  | (da, some x) :: (db, some y) :: rest, p, h => by
    rw [show df_prophet ((da, some x) :: (db, some y) :: rest) =
          (db, clampBurn (x - y)) :: df_prophet ((db, some y) :: rest)
        from rfl] at h
    rcases List.mem_cons.mp h with rfl | h
    · exact clampBurn_nonneg _
    · exact df_prophet_snd_nonneg ((db, some y) :: rest) p h
  | (da, some x) :: (db, none) :: rest, p, h => by
    rw [show df_prophet ((da, some x) :: (db, none) :: rest) =
          df_prophet ((db, none) :: rest) from rfl] at h
    exact df_prophet_snd_nonneg ((db, none) :: rest) p h
  | (da, none) :: (db, ob) :: rest, p, h => by
    rw [show df_prophet ((da, none) :: (db, ob) :: rest) =
          df_prophet ((db, ob) :: rest) from rfl] at h
    exact df_prophet_snd_nonneg ((db, ob) :: rest) p h

theorem f365_val_constZero (df : List ConsumptionPoint) :
    f365_val constZero df = 0 := by
  show ((futureDays df).map (fun _ => (0 : ℚ))).sum = 0
  simp

theorem f30_val_constZero (df : List ConsumptionPoint) :
    f30_val constZero df = 0 := by
  show ((futureDays df).map (fun _ => (0 : ℚ))).sum = 0
  simp

/-- Fully evaluated run on the sample input. -/
theorem runPipeline_obsSample :
    runPipeline constZero obsSample = .ok decSample := by
  have hdf : df_prophet obsSample = [(1, 1), (2, 1)] := by
    show [((1 : ℕ), clampBurn (5 - 4)), (2, clampBurn (4 - 3))] =
      [(1, 1), (2, 1)]
    norm_num [clampBurn]
  have hfb : fallback [(1, 1), (2, 1)] = 30 := by
    norm_num [fallback, avg_daily_burn]
  have hc : current_stock obsSample = 3 := rfl
  simp only [runPipeline, hdf, f365_val_constZero, f30_val_constZero,
    hfb, hc]
  rw [if_neg (by norm_num)]
  norm_num [decSample, order_qty, final_need, winning_model, max_def]

/-! ### Claims -/

/-- C1: the Safe-Maximum Resolver computes
`order_qty = max 0 (max (max s fb) (max r fb) - c)` for any raw
forecast totals `s`, `r`, fallback floor `fb` and current stock `c`;
the result is always non-negative, and `current_stock = 40` with
`final_need = 300` yields `order_qty = 260`. -/
theorem c1_safe_maximum_resolver (s r fb c : ℚ) :
    order_qty s r fb c = max 0 (max (max s fb) (max r fb) - c) ∧
    0 ≤ order_qty s r fb c ∧
    (final_need s r fb = 300 → order_qty s r fb 40 = 260) := by
  refine ⟨rfl, le_max_left _ _, fun h => ?_⟩
  rw [order_qty, h]
  norm_num

theorem c1_safe_maximum_resolver_witness :
    order_qty 300 (-100) (-100) 40 = 260 :=
  (c1_safe_maximum_resolver 300 (-100) (-100) 40).2.2 (by decide)

/-- C2: on observations sorted ascending, each adjacent pair `(prev,
curr)` yields one consumption point valued `prev - curr` clamped at 0
from below, the first observation yields none, and stocks
`[50, 60, 40]` yield consumption values `[0, 20]`. -/
theorem c2_consumption_extractor :
    (∀ (rows : List (Nat × ℚ)),
      df_prophet (validRows rows) =
        (rows.zip rows.tail).map
          (fun pc => (pc.2.1, max 0 (pc.1.2 - pc.2.2)))) ∧
    (df_prophet (validRows [(1, 50), (2, 60), (3, 40)])).map Prod.snd
      = [0, 20] := by
  constructor
  · intro rows
    rw [df_prophet_valid]
    simp [clampBurn_eq_max]
  · rw [df_prophet_valid]
    norm_num [clampBurn]

/-- C3: every consumption point produced by the extractor has a
non-negative value, for every input observation series. -/
theorem c3_nonneg_consumption (obs : List StockObservation) :
    ∀ p ∈ df_prophet obs, 0 ≤ p.2 :=
  df_prophet_snd_nonneg obs

theorem c3_nonneg_consumption_witness :
    0 ≤ ((2, (20 : ℚ)) : ConsumptionPoint).2 :=
  c3_nonneg_consumption [(0, some 60), (2, some 40)] (2, 20) (by
    show (2, (20 : ℚ)) ∈ [((2 : ℕ), clampBurn (60 - 40))]
    norm_num [clampBurn])

/-- C6: the winning model is seasonal exactly when the floored seasonal
total strictly exceeds the floored reactive total, reactive otherwise;
in particular a tie goes to reactive. -/
theorem c6_winning_model_tie (sf rf : ℚ) :
    (winning_model sf rf = .seasonal ↔ rf < sf) ∧
    (winning_model sf rf = .reactive ↔ ¬ rf < sf) ∧
    (sf = rf → winning_model sf rf = .reactive) := by
  by_cases h : rf < sf
  · refine ⟨⟨fun _ => h, fun _ => ?_⟩, ⟨fun hw => ?_, fun hn => absurd h hn⟩,
      fun he => absurd (he ▸ h) (lt_irrefl rf)⟩
    · rw [winning_model, if_pos h]
    · rw [winning_model, if_pos h] at hw
      exact absurd hw (by simp)
  · refine ⟨⟨fun hw => ?_, fun hlt => absurd hlt h⟩,
      ⟨fun _ => h, fun _ => ?_⟩, fun _ => ?_⟩
    · rw [winning_model, if_neg h] at hw
      exact absurd hw (by simp)
    · rw [winning_model, if_neg h]
    · rw [winning_model, if_neg h]

theorem c6_winning_model_tie_witness :
    winning_model 5 5 = .reactive :=
  (c6_winning_model_tie 5 5).2.2 rfl

/-- C9: the pipeline is a pure function of the forecasting capability
and the input series, so two runs on identical inputs return identical
order quantities and identical winning models. -/
theorem c9_idempotence (predict : Forecaster)
    (obs1 obs2 : List StockObservation) (h : obs1 = obs2) :
    (runPipeline predict obs1).map RestockDecision.final_order_quantity =
      (runPipeline predict obs2).map RestockDecision.final_order_quantity ∧
    (runPipeline predict obs1).map RestockDecision.winning_model =
      (runPipeline predict obs2).map RestockDecision.winning_model := by
  rw [h]
  exact ⟨rfl, rfl⟩

theorem c9_idempotence_witness :
    (runPipeline constZero [(0, some 5), (1, some 4), (2, some 3)]).map
        RestockDecision.final_order_quantity =
      (runPipeline constZero [(0, some 5), (1, some 4), (2, some 3)]).map
        RestockDecision.final_order_quantity ∧
    (runPipeline constZero [(0, some 5), (1, some 4), (2, some 3)]).map
        RestockDecision.winning_model =
      (runPipeline constZero [(0, some 5), (1, some 4), (2, some 3)]).map
        RestockDecision.winning_model :=
  c9_idempotence constZero _ _ rfl

/-- C4: whenever fewer than 2 valid consumption points remain after
extraction, the run stops with the insufficient-data failure and no
decision is produced. -/
theorem c4_insufficient_data (predict : Forecaster)
    (obs : List StockObservation)
    (h : (df_prophet obs).length < 2) :
    runPipeline predict obs = .error .insufficientData := by
  simp only [runPipeline]
  rw [if_pos h]

theorem c4_insufficient_data_witness :
    runPipeline constZero [(0, some 5)] = .error .insufficientData :=
  c4_insufficient_data constZero [(0, some 5)] (by decide)

/-- C5: the fallback floor is the mean training consumption times 30;
when both raw forecast totals are below the floor and the mean is
positive, the final need is exactly that mean times 30; and stocks
`[100, 90, 80, 70]` give consumption points `[10, 10, 10]`, mean 10
and floor 300. -/
theorem c5_fallback_dominance (df : List ConsumptionPoint) (s r : ℚ)
    (_hd : 0 < avg_daily_burn df)
    (hs : s < fallback df) (hr : r < fallback df) :
    fallback df = avg_daily_burn df * 30 ∧
    final_need s r (fallback df) = avg_daily_burn df * 30 ∧
    df_prophet (validRows [(1, 100), (2, 90), (3, 80), (4, 70)]) =
      [(2, 10), (3, 10), (4, 10)] ∧
    avg_daily_burn [(2, 10), (3, 10), (4, 10)] = 10 ∧
    fallback [(2, 10), (3, 10), (4, 10)] = 300 := by
  refine ⟨?_, ?_, ?_, ?_, ?_⟩
  · rw [fallback]
  · rw [final_need, max_eq_right hs.le, max_eq_right hr.le, max_self, fallback]
  · rw [df_prophet_valid]
    norm_num [clampBurn]
  · norm_num [avg_daily_burn]
  · norm_num [fallback, avg_daily_burn]

theorem c5_fallback_dominance_witness :
    fallback [(2, 10), (3, 10), (4, 10)] =
      avg_daily_burn [(2, 10), (3, 10), (4, 10)] * 30 ∧
    final_need (-1000) (-1000) (fallback [(2, 10), (3, 10), (4, 10)]) =
      avg_daily_burn [(2, 10), (3, 10), (4, 10)] * 30 ∧
    df_prophet (validRows [(1, 100), (2, 90), (3, 80), (4, 70)]) =
      [(2, 10), (3, 10), (4, 10)] ∧
    avg_daily_burn [(2, 10), (3, 10), (4, 10)] = 10 ∧
    fallback [(2, 10), (3, 10), (4, 10)] = 300 :=
  c5_fallback_dominance [(2, 10), (3, 10), (4, 10)] (-1000) (-1000)
    (by norm_num [avg_daily_burn])
    (by norm_num [fallback, avg_daily_burn])
    (by norm_num [fallback, avg_daily_burn])

/-- C8: an all-zero consumption history (with enough points to pass the
guard) is handled without any arithmetic failure: the mean is 0, the
fallback floor is 0, and the pipeline still returns a decision. -/
theorem c8_zero_history_safe (predict : Forecaster)
    (obs : List StockObservation)
    (h2 : ¬ (df_prophet obs).length < 2)
    (hz : ∀ p ∈ df_prophet obs, p.2 = 0) :
    avg_daily_burn (df_prophet obs) = 0 ∧
    ∃ dec, runPipeline predict obs = .ok dec ∧ dec.fallback_floor = 0 := by
  have hsum : ((df_prophet obs).map Prod.snd).sum = 0 := by
    apply List.sum_eq_zero
    intro x hx
    rcases List.mem_map.mp hx with ⟨p, hp, rfl⟩
    exact hz p hp
  have havg : avg_daily_burn (df_prophet obs) = 0 := by
    rw [avg_daily_burn, hsum, zero_div]
  refine ⟨havg, ?_⟩
  apply Exists.intro
  constructor
  · simp only [runPipeline]
    rw [if_neg h2]
  · show fallback (df_prophet obs) = 0
    rw [fallback, havg, zero_mul]

theorem c8_zero_history_safe_witness :
    avg_daily_burn
        (df_prophet [(0, some 5), (1, some 5), (2, some 5)]) = 0 ∧
    ∃ dec,
      runPipeline constZero [(0, some 5), (1, some 5), (2, some 5)] =
        .ok dec ∧ dec.fallback_floor = 0 :=
  c8_zero_history_safe constZero [(0, some 5), (1, some 5), (2, some 5)]
    (by decide)
    (by
      intro p hp
      rw [show df_prophet [(0, some 5), (1, some 5), (2, some 5)] =
            [(1, clampBurn (5 - 5)), (2, clampBurn (5 - 5))] from rfl] at hp
      rcases List.mem_cons.mp hp with rfl | hp
      · norm_num [clampBurn]
      · rcases List.mem_cons.mp hp with rfl | hp
        · norm_num [clampBurn]
        · exact absurd hp (List.not_mem_nil _))

/-- C7: the seasonal model's configuration enables yearly and disables
daily seasonality at the default trend flexibility; the reactive
model's trend flexibility is strictly higher; the reactive model
trains on at most the last 30 points (a suffix of the history); both
totals are plain, unclamped sums of the same 30 daily predictions for
the 30 days after the end of the full history. -/
theorem c7_dual_horizon (predict : Forecaster)
    (obs : List StockObservation) (dec : RestockDecision)
    (h : runPipeline predict obs = .ok dec) :
    m365.yearly_seasonality = some true ∧
    m365.daily_seasonality = some false ∧
    m365.changepoint_prior_scale = defaultChangepointScale ∧
    defaultChangepointScale < m30.changepoint_prior_scale ∧
    dec.seasonal_forecast.predicted_total_demand =
      ((futureDays (df_prophet obs)).map
        (predict m365 (df_prophet obs))).sum ∧
    dec.reactive_forecast.predicted_total_demand =
      ((futureDays (df_prophet obs)).map
        (predict m30 (tailRows 30 (df_prophet obs)))).sum ∧
    (tailRows 30 (df_prophet obs)).length =
      min 30 (df_prophet obs).length ∧
    tailRows 30 (df_prophet obs) <:+ df_prophet obs ∧
    (futureDays (df_prophet obs)).length = 30 ∧
    (∀ d ∈ futureDays (df_prophet obs),
      lastDs (df_prophet obs) < d ∧
        d ≤ lastDs (df_prophet obs) + 30) ∧
    dec.seasonal_forecast.horizon_days = 30 ∧
    dec.reactive_forecast.horizon_days = 30 := by
  simp only [runPipeline] at h
  split at h
  · exact (Except.noConfusion h)
  · injection h with h
    subst h
    refine ⟨rfl, rfl, rfl, by norm_num [defaultChangepointScale, m30],
      rfl, rfl, ?_, List.drop_suffix _ _, by simp [futureDays], ?_,
      rfl, rfl⟩
    · rw [tailRows, List.length_drop]
      omega
    · intro d hd
      simp only [futureDays, List.mem_map, List.mem_range] at hd
      obtain ⟨i, hi, rfl⟩ := hd
      omega

theorem c7_dual_horizon_witness :
    m365.yearly_seasonality = some true ∧
    m365.daily_seasonality = some false ∧
    m365.changepoint_prior_scale = defaultChangepointScale ∧
    defaultChangepointScale < m30.changepoint_prior_scale ∧
    decSample.seasonal_forecast.predicted_total_demand =
      ((futureDays (df_prophet obsSample)).map
        (constZero m365 (df_prophet obsSample))).sum ∧
    decSample.reactive_forecast.predicted_total_demand =
      ((futureDays (df_prophet obsSample)).map
        (constZero m30 (tailRows 30 (df_prophet obsSample)))).sum ∧
    (tailRows 30 (df_prophet obsSample)).length =
      min 30 (df_prophet obsSample).length ∧
    tailRows 30 (df_prophet obsSample) <:+ df_prophet obsSample ∧
    (futureDays (df_prophet obsSample)).length = 30 ∧
    (∀ d ∈ futureDays (df_prophet obsSample),
      lastDs (df_prophet obsSample) < d ∧
        d ≤ lastDs (df_prophet obsSample) + 30) ∧
    decSample.seasonal_forecast.horizon_days = 30 ∧
    decSample.reactive_forecast.horizon_days = 30 :=
  c7_dual_horizon constZero obsSample decSample runPipeline_obsSample

/-- C10: a missing on-hand reading drops both the difference ending at
that row and the one starting from it, and no bridging point between
the surrounding valid readings is produced: three readings with the
middle one missing yield no point (versus two points when all three
are valid), and five readings with the middle one missing yield only
the two points not touching it. -/
theorem c10_missing_reading (d0 d1 d2 d3 d4 : Nat) (z a b c : ℚ) :
    df_prophet [(d1, some a), (d2, none), (d3, some b)] = [] ∧
    df_prophet [(d0, some z), (d1, some a), (d2, none), (d3, some b),
        (d4, some c)]
      = [(d1, clampBurn (z - a)), (d4, clampBurn (b - c))] ∧
    df_prophet [(d1, some a), (d2, some b), (d3, some c)]
      = [(d2, clampBurn (a - b)), (d3, clampBurn (b - c))] :=
  ⟨rfl, rfl, rfl⟩

end RestockAI
